import Mathlib

/-!
Verification of the provenance-database core (`dosocs2/spdxdb.py`).

The relational store is embedded as an explicit state (`DB`): each table is a
list of rows in insertion order, with one primary-key counter per table that
hands out autoincrement keys, mirroring `insert`'s use of
`result.inserted_primary_key`.  The `util` helpers (which live outside the
core module) are abstracted as an environment of deterministic functions of
their path arguments.  Fallible operations return `Except PyErr`, where
`PyErr` stands for the Python exception that the corresponding statement
would raise.
-/

/-- A Python exception escaping one of the database functions. -/
inductive PyErr where
  | valueError (msg : String)
  | typeError (msg : String)
deriving Repr, DecidableEq

/-- Row of the `file_types` table (`file_type_id`, `name`). -/
structure FileTypeRow where
  file_type_id : Nat
  name : String
deriving Repr, DecidableEq

/-- Row of the `files` table, with the fields built by `register_file`. -/
structure FileRow where
  file_id : Nat
  sha1 : String
  file_type_id : Nat
  copyright_text : Option String
  project_id : Option Nat
  comment : String
  notice : String
deriving Repr, DecidableEq

/-- Row of the `packages` table, with exactly the keys of the dict built by
`register_package`. -/
structure PackageRow where
  package_id : Nat
  name : String
  file_name : String
  version : String
  supplier_id : Option Nat
  originator_id : Option Nat
  download_location : Option String
  verification_code : String
  ver_code_excluded_file_id : Option Nat
  sha1 : Option String
  home_page : Option String
  source_info : String
  concluded_license_id : Option Nat
  declared_license_id : Option Nat
  license_comment : String
  copyright_text : Option String
  summary : String
  description : String
  comment : String
  dosocs2_dir_code : Option String
deriving Repr, DecidableEq

/-- Row of the `packages_files` association table. -/
structure PackageFileRow where
  package_id : Nat
  file_id : Nat
  concluded_license_id : Option Nat
  file_name : String
  license_comment : String
deriving Repr, DecidableEq

/-- Row of the `relationships` edge table. -/
structure RelationshipRow where
  left_identifier_id : Nat
  relationship_type_id : Nat
  right_identifier_id : Nat
  relationship_comment : String
deriving Repr, DecidableEq

/-- Row of the `identifiers` table, restricted to the columns the dependency
queries consult (`identifier_id`, and the `package_id` reference, null for
file and document identifiers). -/
structure IdentifierRow where
  identifier_id : Nat
  package_id : Option Nat
deriving Repr, DecidableEq

/-- The relational store: one list of rows per table, in insertion order,
plus the autoincrement counters for the primary keys handed out by
`insert`. -/
structure DB where
  file_types : List FileTypeRow
  files : List FileRow
  packages : List PackageRow
  packages_files : List PackageFileRow
  relationships : List RelationshipRow
  identifiers : List IdentifierRow
  nextFileId : Nat
  nextPackageId : Nat
deriving Repr, DecidableEq

/-- The `util` helpers used by `spdxdb.py`.  That module is repository code
outside the translated core; per the spec (sections 4.2, 4.3 and 6) its
functions are deterministic functions of their path arguments, so they are
abstracted as an environment of opaque functions: `sha1 path` is the content
hash of the file at `path`, and `getDirHashes root` returns the verification
code, the `(file path, content hash)` pairs of the walked tree, and the
directory code, as `util.get_dir_hashes` does. -/
structure Env where
  sha1 : String → String
  getDirHashes : String → String × List (String × String) × String
  spdxFiletype : String → String
  abspath : String → String
  basename : String → String
  absToRel : String → String → String
  friendlyName : String → String

/-- Python's single-element destructuring `[x] = xs`: succeeds exactly when
the list has one element, raising `ValueError` otherwise. -/
def unpack_one {α : Type} : List α → Except PyErr α
  | [x] => .ok x
  | [] => .error (.valueError ("need more than 0 values to unpack"))
  | _ :: _ :: _ => .error (.valueError ("too many values to unpack"))

/-- The idiom `[result] = conn.execute(query).fetchall() or [None]` shared by
`lookup_by_sha1`, `get_cached_dir_pkg` and `fetch`: an empty result set
yields `none`, a singleton yields the row, and two or more rows raise. -/
def fetch_one_or_none {α : Type} (fetched : List α) : Except PyErr (Option α) :=
  unpack_one (match fetched with
    | [] => [(none : Option α)]
    | l => l.map some)

/-- `lookup_by_sha1(conn, table, sha1)`: select the rows whose (possibly
null) `sha1` column equals the given hash, then destructure.  A SQL `NULL`
never compares equal, hence the `Option String` projection. -/
def lookup_by_sha1 {α : Type} (rows : List α) (sha1of : α → Option String)
    (sha1 : String) : Except PyErr (Option α) :=
  fetch_one_or_none (rows.filter (fun r => sha1of r == some sha1))

/-- `bulk_insert(conn, table, rows_list)`: `if rows_list:` guards the
executemany, so an empty rows list performs no storage operation at all. -/
def bulk_insert {α : Type} (table : List α) (rows_list : List α) : List α :=
  if rows_list.isEmpty then table else table ++ rows_list

/-- `register_file(conn, path, known_sha1)`.  The file-type lookup
`fetchone()['file_type_id']` subscripts the fetched row, raising a
`TypeError` when the classification matches no `file_types` row. -/
def register_file (env : Env) (db : DB) (path : String) (known_sha1 : Option String) :
    Except PyErr (FileRow × DB) :=
  let sha1 := known_sha1.getD (env.sha1 path)
  match lookup_by_sha1 db.files (fun f => some f.sha1) sha1 with
  | .error e => .error e
  | .ok (some file) => .ok (file, db)
  | .ok none =>
    match db.file_types.find? (fun ft => ft.name == env.spdxFiletype path) with
    | none => .error (.typeError ("NoneType object is not subscriptable"))
    | some ft =>
      let file : FileRow :=
        { file_id := db.nextFileId
          sha1 := sha1
          file_type_id := ft.file_type_id
          copyright_text := none
          project_id := none
          comment := ""
          notice := "" }
      .ok (file, { db with files := db.files ++ [file], nextFileId := db.nextFileId + 1 })

/-- `get_cached_dir_pkg(conn, dir_code, ver_code)`: select the packages
matching both codes and destructure; falling off the end of the Python
function returns `None`. -/
def get_cached_dir_pkg (db : DB) (dir_code ver_code : String) :
    Except PyErr (Option PackageRow) :=
  fetch_one_or_none (db.packages.filter
    (fun p => p.dosocs2_dir_code == some dir_code && p.verification_code == ver_code))

/-- The `for (file_path, file_sha1) in hashes.iteritems()` loop inside
`register_package` (lines 137-147): register each contained file and build
the `packages_files` row parameters in order.  Each statement is executed on
the connection as it happens, so an error carries the store as already
modified by the preceding iterations. -/
def register_package_files (env : Env) (db : DB) (package_id : Nat)
    (package_root : String) :
    List (String × String) → Except (PyErr × DB) (List PackageFileRow × DB)
  | [] => .ok ([], db)
  | (file_path, file_sha1) :: rest =>
    match register_file env db file_path (some file_sha1) with
    | .error e => .error (e, db)
    | .ok (fileobj, db1) =>
      match register_package_files env db1 package_id package_root rest with
      | .error e => .error e
      | .ok (rows, db2) =>
        .ok (({ package_id := package_id
                file_id := fileobj.file_id
                concluded_license_id := none
                file_name := env.absToRel package_root file_path
                license_comment := "" } : PackageFileRow) :: rows, db2)

/-- `register_package(conn, package_root, name, version, comment,
package_file_path)`.  The result carries the returned package row, the store
after the call, and a flag recording whether `util.get_dir_hashes` ran (the
archive-hash cache hit returns before any file scan).  Errors carry the
store as already modified when the exception was raised. -/
def register_package (env : Env) (db : DB) (package_root : String)
    (name version comment package_file_path : Option String) :
    Except (PyErr × DB) (PackageRow × DB × Bool) :=
  -- Attempt to get cached package row:
  -- a "true package" may be cached by SHA-1 of the entire package file.
  let cached1 : Except PyErr (Option PackageRow) :=
    match package_file_path with
    | some pfp => lookup_by_sha1 db.packages (fun p => p.sha1) (env.sha1 pfp)
    | none => .ok none
  match cached1 with
  | .error e => .error (e, db)
  | .ok (some package) => .ok (package, db, false)
  | .ok none =>
    let dh := env.getDirHashes package_root
    let ver_code := dh.1
    let hashes := dh.2.1
    let dir_code := dh.2.2
    -- In the directory case, try the (dir_code, ver_code) cache; the `sha1`
    -- variable is the archive hash in the archive case and null otherwise.
    let cached2 : Except PyErr (Option PackageRow) :=
      match package_file_path with
      | none => get_cached_dir_pkg db dir_code ver_code
      | some _ => .ok none
    match cached2 with
    | .error e => .error (e, db)
    | .ok (some found_pkg) => .ok (found_pkg, db, true)
    | .ok none =>
      let sha1 : Option String := package_file_path.map env.sha1
      let basename := env.basename (env.abspath (package_file_path.getD package_root))
      let pname : String :=
        match package_file_path with
        | none => name.getD basename
        | some pfp => name.getD (env.friendlyName (env.basename pfp))
      -- Create package row; `None is permitted` for sha1; dosocs2_dir_code
      -- is `None if sha1 is not None else dir_code`.
      let package : PackageRow :=
        { package_id := db.nextPackageId
          name := pname
          file_name := basename
          version := version.getD ""
          supplier_id := none
          originator_id := none
          download_location := none
          verification_code := ver_code
          ver_code_excluded_file_id := none
          sha1 := sha1
          home_page := none
          source_info := ""
          concluded_license_id := none
          declared_license_id := none
          license_comment := ""
          copyright_text := none
          summary := ""
          description := ""
          comment := comment.getD ""
          dosocs2_dir_code := if sha1.isSome then none else some dir_code }
      let db1 : DB := { db with packages := db.packages ++ [package]
                                nextPackageId := db.nextPackageId + 1 }
      -- Create packages_files rows, then bulk-insert them.
      match register_package_files env db1 package.package_id package_root hashes with
      | .error e => .error e
      | .ok (row_params, db2) =>
        .ok (package,
             { db2 with packages_files := bulk_insert db2.packages_files row_params },
             true)

/-- Modelled from the spec: the callers of `register_package` (not under
src/) own the connection and its transaction scope; spec section 5 requires
package creation plus its file-association bulk insert to be one atomic unit
of work, so a failure anywhere inside the call rolls the connection back to
the state before the call. -/
def register_package_txn (env : Env) (db : DB) (package_root : String)
    (name version comment package_file_path : Option String) :
    Except (PyErr × DB) (PackageRow × DB × Bool) :=
  match register_package env db package_root name version comment package_file_path with
  | .ok r => .ok r
  | .error (e, _) => .error (e, db)

/-- Modelled from the spec: `queries.check_for_relationship` (the `queries`
module is not under src/) — per spec section 4.5 it looks for an existing
edge with the exact (left, PREREQUISITE, right) triple. -/
def check_for_relationship (db : DB) (parent_identifier child_identifier : Nat) :
    Option RelationshipRow :=
  db.relationships.find? (fun r =>
    r.left_identifier_id == parent_identifier &&
    r.relationship_type_id == 29 &&
    r.right_identifier_id == child_identifier)

/-- `create_relationship_prerequisite(conn, parent_identifier,
child_identifier)`: insert the PREREQUISITE edge (type id 29) unless the
check finds one, in which case print a report.  The second component is the
printed message, if any. -/
def create_relationship_prerequisite (db : DB) (parent_identifier child_identifier : Nat) :
    DB × Option String :=
  let new_relationship : RelationshipRow :=
    { left_identifier_id := parent_identifier
      relationship_type_id := 29
      right_identifier_id := child_identifier
      relationship_comment := "" }
  match check_for_relationship db parent_identifier child_identifier with
  | none => ({ db with relationships := db.relationships ++ [new_relationship] }, none)
  | some _ =>
    (db, some ("Relationship for parent identifier " ++ toString parent_identifier ++
      " and child identifier " ++ toString child_identifier ++ " already exists."))

/-- Modelled from the spec: `queries.find_identifier_by_package_id` (the
`queries` module is not under src/) — selects the `identifier_id` of the
Identifier row referencing the given package; `fetchone()` yields the first
such row or `None`. -/
def find_identifier_by_package_id (db : DB) (package_id : Nat) : Option Nat :=
  (db.identifiers.find? (fun i => i.package_id == some package_id)).map
    (fun i => i.identifier_id)

/-- Modelled from the spec: `queries.get_package_names` (the `queries`
module is not under src/) — for the given identifiers, the (identifier,
package name) pairs obtained by joining identifiers to packages; identifiers
that are not package identifiers contribute nothing. -/
def get_package_names (db : DB) (keys : List Nat) : List (Nat × String) :=
  keys.filterMap (fun k =>
    (db.identifiers.find? (fun i => i.identifier_id == k)).bind (fun idrow =>
      idrow.package_id.bind (fun pid =>
        (db.packages.find? (fun p => p.package_id == pid)).map (fun p => (k, p.name)))))

/-- `relationshipHash[k] = ""`: setting a key in the dict of seen
identifiers (insertion is idempotent on keys). -/
def insertKey (keys : List Nat) (k : Nat) : List Nat :=
  if keys.contains k then keys else keys ++ [k]

/-- One `for item in result` pass of the dependency-collection loop in
`get_dependencies`: a triple is `(left, right, type)`; every item whose left
endpoint is a seen key and whose right endpoint is not gets its right
endpoint added and decrements the counter. -/
def depPass (result : List (Nat × Nat × Nat)) (st : Int × List Nat) :
    Int × List Nat :=
  result.foldl (fun st item =>
    if st.2.contains item.1 && !(st.2.contains item.2.1) then
      (st.1 - 1, st.2 ++ [item.2.1])
    else st) st

/-- The `while (count < 1)` loop of `get_dependencies`: after each pass the
counter goes up by one and down by the number of keys added, so the loop
runs until a pass adds nothing (reaching the closure over `result`).  The
fuel argument bounds the passes: the loop exits after (total keys added + 1)
passes, and at most `result.length` keys can ever be added, so
`result.length + 2` passes always suffice. -/
def depLoop (result : List (Nat × Nat × Nat)) :
    Nat → Int → List Nat → List Nat
  | 0, _, keys => keys
  | fuel + 1, count, keys =>
    if count < 1 then
      let st := depPass result (count, keys)
      depLoop result fuel (st.1 + 1) st.2
    else keys

/-- `get_dependencies(conn, package)`.  The recursive CTE in the source
never references itself: its second term filters `rel2` against the raw
`relationships` alias `rel`, not against the CTE, so the union is evaluated
once and contributes every edge whose right endpoint is the left endpoint of
some edge.  Moreover both compound filters use Python `and` on SQLAlchemy
comparison expressions; such an expression is falsy (its truth value
compares the hashes of its two operands), so `and` yields its left operand
and the right conjunct of each filter is dropped.  Hence `result` is the
distinct (left, right, type) triples of type 29 drawn from the edges leaving
the root plus the edges whose target has an outgoing edge.  An unregistered
package makes `package['package_id']` subscript `None`; a package without an
identifier row makes `[package_identifier] = fetchone()` destructure `None`;
both raise `TypeError`.  The trailing enumerate-pop-insert loops move each
entry whose left component is the root to the front, successively, which
leaves the matching entries first (in reverse order of appearance) followed
by the rest in order. -/
def get_dependencies (env : Env) (db : DB) (package : String) :
    Except PyErr (List (Nat × String) × List (Nat × Nat × Nat)) :=
  let package_sha1 := env.sha1 package
  match lookup_by_sha1 db.packages (fun p => p.sha1) package_sha1 with
  | .error e => .error e
  | .ok none => .error (.typeError ("NoneType object is not subscriptable"))
  | .ok (some pkg) =>
    match find_identifier_by_package_id db pkg.package_id with
    | none => .error (.typeError ("NoneType object is not iterable"))
    | some package_identifier =>
      let initial := db.relationships.filter
        (fun r => r.left_identifier_id == package_identifier)
      let lefts := db.relationships.map (fun r => r.left_identifier_id)
      let recs := db.relationships.filter
        (fun r => lefts.contains r.right_identifier_id)
      let result := (((initial ++ recs).filter
          (fun r => r.relationship_type_id == 29)).map
        (fun r => (r.left_identifier_id, r.right_identifier_id,
                   r.relationship_type_id))).eraseDups
      let firstValues := result.filter (fun item => item.1 == package_identifier)
      let relationshipHash := firstValues.foldl
        (fun ks item => insertKey (insertKey ks item.1) item.2.1) []
      let relationshipHash := depLoop result (result.length + 2) 0 relationshipHash
      let relationships := result.filter
        (fun item => relationshipHash.contains item.1 &&
                     relationshipHash.contains item.2.1)
      let package_dependencies := get_package_names db relationshipHash
      let package_dependencies :=
        (package_dependencies.filter (fun v => v.1 == package_identifier)).reverse ++
        package_dependencies.filter (fun v => !(v.1 == package_identifier))
      let relationships :=
        (relationships.filter (fun v => v.1 == package_identifier)).reverse ++
        relationships.filter (fun v => !(v.1 == package_identifier))
      .ok (package_dependencies, relationships)

/-- Modelled from the spec: the verification-code computation inside
`util.get_dir_hashes` (the `util` module is not under src/) — per spec
section 4.2, take the file content hashes in lowercase hex, sort them
lexicographically ascending, concatenate them with no separator, and hash
the concatenation with the file-identity hash algorithm (abstracted as
`hashfn`). -/
def verification_code (hashfn : String → String) (hashes : List String) : String :=
  hashfn (String.join (hashes.mergeSort (fun a b => a ≤ b)))

/-- The regime invariant of spec section 3: a package row has exactly one of
`sha1` (content hash) and `dosocs2_dir_code` populated. -/
def mutuallyExclusive (p : PackageRow) : Bool :=
  (p.sha1.isSome && p.dosocs2_dir_code.isNone) ||
  (p.sha1.isNone && p.dosocs2_dir_code.isSome)

/-! Concrete fixtures used to evaluate the functions on closed inputs. -/

/-- A concrete environment: content hashes, verification codes and directory
codes are derived injectively from the path, and every file classifies as
the SOURCE file type. -/
def envW : Env :=
  { sha1 := fun p => "sha-" ++ p
    getDirHashes := fun root =>
      ("vercode-" ++ root, [("f1", "hash1")], "dircode-" ++ root)
    spdxFiletype := fun _ => "SOURCE"
    abspath := fun p => p
    basename := fun p => p
    absToRel := fun _ p => p
    friendlyName := fun p => p }

/-- A fresh store whose `file_types` reference table knows the SOURCE type. -/
def dbW : DB :=
  { file_types := [{ file_type_id := 1, name := "SOURCE" }]
    files := []
    packages := []
    packages_files := []
    relationships := []
    identifiers := []
    nextFileId := 1
    nextPackageId := 1 }

/-- Like `envW`, but the file-type classifier yields a name that is missing
from the `file_types` table, so `register_file` raises partway through a
package registration. -/
def envFail : Env := { envW with spdxFiletype := fun _ => "UNKNOWN" }

/-- Like `envW`, but the directory walk yields an empty file set. -/
def envEmptyDir : Env :=
  { envW with getDirHashes := fun root => ("vercode-" ++ root, [], "dircode-" ++ root) }

/-- An archive-regime package row as `register_package` would create it for
a package named `nm` with archive hash `h` (used to populate the dependency
fixtures). -/
def pkgRowOf (pid : Nat) (nm h : String) : PackageRow :=
  { package_id := pid
    name := nm
    file_name := nm
    version := ""
    supplier_id := none
    originator_id := none
    download_location := none
    verification_code := "vc"
    ver_code_excluded_file_id := none
    sha1 := some h
    home_page := none
    source_info := ""
    concluded_license_id := none
    declared_license_id := none
    license_comment := ""
    copyright_text := none
    summary := ""
    description := ""
    comment := ""
    dosocs2_dir_code := none }

/-- Three registered packages A, B, C with identifiers 1, 2, 3 and the
PREREQUISITE chain A depends on B, B depends on C. -/
def dbChain : DB :=
  { dbW with
    packages := [pkgRowOf 101 ("A") ("sha-pkgA"),
                 pkgRowOf 102 ("B") ("sha-pkgB"),
                 pkgRowOf 103 ("C") ("sha-pkgC")]
    identifiers := [{ identifier_id := 1, package_id := some 101 },
                    { identifier_id := 2, package_id := some 102 },
                    { identifier_id := 3, package_id := some 103 }]
    relationships := [{ left_identifier_id := 1, relationship_type_id := 29,
                        right_identifier_id := 2, relationship_comment := "" },
                      { left_identifier_id := 2, relationship_type_id := 29,
                        right_identifier_id := 3, relationship_comment := "" }] }

/-- A store holding a registered package P that has no Identifier row. -/
def dbNoId : DB :=
  { dbW with packages := [pkgRowOf 201 ("P") ("sha-pkgP")] }

/-! Helper lemmas about the fetch-then-destructure idiom and framing. -/

theorem beq_some_some {α : Type} [BEq α] (a b : α) :
    ((some a : Option α) == some b) = (a == b) := rfl

theorem fetch_one_or_none_nil {α : Type} :
    fetch_one_or_none ([] : List α) = .ok none := rfl

theorem fetch_one_or_none_single {α : Type} (r : α) :
    fetch_one_or_none [r] = .ok (some r) := rfl

theorem fetch_one_or_none_eq_ok_none {α : Type} {l : List α}
    (h : fetch_one_or_none l = .ok none) : l = [] := by
  match l with
  | [] => rfl
  | [a] => simp [fetch_one_or_none, unpack_one] at h
  | a :: b :: t => simp [fetch_one_or_none, unpack_one] at h

theorem fetch_one_or_none_eq_ok_some {α : Type} {l : List α} {r : α}
    (h : fetch_one_or_none l = .ok (some r)) : l = [r] := by
  match l with
  | [] => simp [fetch_one_or_none, unpack_one] at h
  | [a] =>
    simp [fetch_one_or_none, unpack_one] at h
    rw [h]
  | a :: b :: t => simp [fetch_one_or_none, unpack_one] at h

theorem lookup_by_sha1_eq_ok_none {α : Type} {rows : List α}
    {sha1of : α → Option String} {sha1 : String}
    (h : lookup_by_sha1 rows sha1of sha1 = .ok none) :
    rows.filter (fun r => sha1of r == some sha1) = [] :=
  fetch_one_or_none_eq_ok_none h

theorem lookup_by_sha1_eq_ok_some {α : Type} {rows : List α}
    {sha1of : α → Option String} {sha1 : String} {r : α}
    (h : lookup_by_sha1 rows sha1of sha1 = .ok (some r)) :
    rows.filter (fun x => sha1of x == some sha1) = [r] :=
  fetch_one_or_none_eq_ok_some h

theorem lookup_by_sha1_single {α : Type} {rows : List α}
    {sha1of : α → Option String} {sha1 : String} {r : α}
    (h : rows.filter (fun x => sha1of x == some sha1) = [r]) :
    lookup_by_sha1 rows sha1of sha1 = .ok (some r) := by
  unfold lookup_by_sha1
  rw [h]
  exact fetch_one_or_none_single r

theorem get_cached_dir_pkg_eq_ok_none {db : DB} {dir_code ver_code : String}
    (h : get_cached_dir_pkg db dir_code ver_code = .ok none) :
    db.packages.filter (fun p => p.dosocs2_dir_code == some dir_code &&
      p.verification_code == ver_code) = [] :=
  fetch_one_or_none_eq_ok_none h

theorem get_cached_dir_pkg_eq_ok_some {db : DB} {dir_code ver_code : String}
    {r : PackageRow}
    (h : get_cached_dir_pkg db dir_code ver_code = .ok (some r)) :
    db.packages.filter (fun p => p.dosocs2_dir_code == some dir_code &&
      p.verification_code == ver_code) = [r] :=
  fetch_one_or_none_eq_ok_some h

theorem get_cached_dir_pkg_single {db : DB} {dir_code ver_code : String}
    {r : PackageRow}
    (h : db.packages.filter (fun p => p.dosocs2_dir_code == some dir_code &&
      p.verification_code == ver_code) = [r]) :
    get_cached_dir_pkg db dir_code ver_code = .ok (some r) := by
  unfold get_cached_dir_pkg
  rw [h]
  exact fetch_one_or_none_single r

theorem register_file_frame {env : Env} {db : DB} {path : String}
    {k : Option String} {f : FileRow} {db' : DB}
    (h : register_file env db path k = .ok (f, db')) :
    db'.packages = db.packages ∧ db'.packages_files = db.packages_files ∧
    db'.file_types = db.file_types ∧ db'.nextPackageId = db.nextPackageId := by
  simp only [register_file] at h
  split at h
  · simp at h
  · simp only [Except.ok.injEq, Prod.mk.injEq] at h
    obtain ⟨-, rfl⟩ := h
    exact ⟨rfl, rfl, rfl, rfl⟩
  · split at h
    · simp at h
    · simp only [Except.ok.injEq, Prod.mk.injEq] at h
      obtain ⟨-, rfl⟩ := h
      exact ⟨rfl, rfl, rfl, rfl⟩

theorem register_package_files_frame {env : Env} {pid : Nat} {root : String} :
    ∀ {hs : List (String × String)} {db : DB} {rows : List PackageFileRow} {db' : DB},
    register_package_files env db pid root hs = .ok (rows, db') →
    db'.packages = db.packages ∧ db'.packages_files = db.packages_files ∧
    db'.nextPackageId = db.nextPackageId := by
  intro hs
  induction hs with
  | nil =>
    intro db rows db' h
    unfold register_package_files at h
    simp only [Except.ok.injEq, Prod.mk.injEq] at h
    obtain ⟨-, rfl⟩ := h
    exact ⟨rfl, rfl, rfl⟩
  | cons p rest ih =>
    intro db rows db' h
    unfold register_package_files at h
    split at h
    · exact absurd h (by simp)
    · rename_i fileobj db1 hrf
      split at h
      · exact absurd h (by simp)
      · rename_i rows2 db2 hrec
        simp only [Except.ok.injEq, Prod.mk.injEq] at h
        obtain ⟨-, rfl⟩ := h
        obtain ⟨hp1, hp2, hp3, hp4⟩ := register_file_frame hrf
        obtain ⟨hq1, hq2, hq4⟩ := ih hrec
        exact ⟨hq1.trans hp1, hq2.trans hp2, hq4.trans hp4⟩

theorem register_package_files_frame_err {env : Env} {pid : Nat} {root : String} :
    ∀ {hs : List (String × String)} {db : DB} {e : PyErr} {db' : DB},
    register_package_files env db pid root hs = .error (e, db') →
    db'.packages = db.packages := by
  intro hs
  induction hs with
  | nil =>
    intro db e db' h
    unfold register_package_files at h
    exact absurd h (by simp)
  | cons p rest ih =>
    intro db e db' h
    unfold register_package_files at h
    split at h
    · simp only [Except.error.injEq, Prod.mk.injEq] at h
      obtain ⟨-, rfl⟩ := h
      rfl
    · rename_i fileobj db1 hrf
      split at h
      · rename_i hrec
        simp only [Except.error.injEq] at h
        obtain ⟨rfl⟩ := h
        have := ih hrec
        exact this.trans (register_file_frame hrf).1
      · exact absurd h (by simp)

theorem register_file_hit {env : Env} {db : DB} {path : String} {f : FileRow}
    (h : db.files.filter (fun x => (some x.sha1 : Option String) ==
      some (env.sha1 path)) = [f]) :
    register_file env db path none = .ok (f, db) := by
  simp only [register_file, Option.getD_none]
  rw [lookup_by_sha1_single h]

/-- C10: for a table with a `sha1` column, `lookup_by_sha1` returns the
unique matching row when exactly one row carries the hash, `none` when no
row does, and raises (the destructuring `ValueError`) instead of returning
any row when two or more rows share the hash. -/
theorem lookup_by_sha1_unique {α : Type} (rows : List α)
    (sha1of : α → Option String) (sha1 : String) (r : α) :
    (rows.filter (fun x => sha1of x == some sha1) = [] →
      lookup_by_sha1 rows sha1of sha1 = .ok none) ∧
    (rows.filter (fun x => sha1of x == some sha1) = [r] →
      lookup_by_sha1 rows sha1of sha1 = .ok (some r)) ∧
    (2 ≤ (rows.filter (fun x => sha1of x == some sha1)).length →
      lookup_by_sha1 rows sha1of sha1 =
        .error (.valueError ("too many values to unpack"))) := by
  refine ⟨fun h => ?_, fun h => lookup_by_sha1_single h, fun h => ?_⟩
  · unfold lookup_by_sha1
    rw [h]
    exact fetch_one_or_none_nil
  · unfold lookup_by_sha1
    rcases hm : rows.filter (fun x => sha1of x == some sha1) with - | ⟨a, - | ⟨b, t⟩⟩
    · rw [hm] at h
      simp at h
    · rw [hm] at h
      simp at h
    · rfl

/-- C3: registering the same path twice returns the identical `File` record
with the store unchanged by the second call, and after any successful call
exactly one `files` row carries that content hash. -/
theorem register_file_idempotent (env : Env) (db : DB) (path : String)
    (f : FileRow) (db₁ : DB)
    (h1 : register_file env db path none = .ok (f, db₁)) :
    register_file env db₁ path none = .ok (f, db₁) ∧
    (db₁.files.filter (fun r => (some r.sha1 : Option String) ==
      some (env.sha1 path))).length = 1 := by
  simp only [register_file, Option.getD_none] at h1
  split at h1
  · simp at h1
  · rename_i file hl
    simp only [Except.ok.injEq, Prod.mk.injEq] at h1
    obtain ⟨rfl, rfl⟩ := h1
    have hfilt := lookup_by_sha1_eq_ok_some hl
    exact ⟨register_file_hit hfilt, by rw [hfilt]; rfl⟩
  · rename_i hl
    split at h1
    · simp at h1
    · rename_i ft hft
      simp only [Except.ok.injEq, Prod.mk.injEq] at h1
      obtain ⟨rfl, rfl⟩ := h1
      have hfilt := lookup_by_sha1_eq_ok_none hl
      have hone : (db.files ++
          [({ file_id := db.nextFileId, sha1 := env.sha1 path,
              file_type_id := ft.file_type_id, copyright_text := none,
              project_id := none, comment := "", notice := "" } : FileRow)]).filter
          (fun x => (some x.sha1 : Option String) == some (env.sha1 path)) =
          [{ file_id := db.nextFileId, sha1 := env.sha1 path,
             file_type_id := ft.file_type_id, copyright_text := none,
             project_id := none, comment := "", notice := "" }] := by
        rw [List.filter_append, hfilt]
        simp
      exact ⟨register_file_hit hone, by rw [hone]; rfl⟩

/-- C5: `create_relationship_prerequisite` inserts the PREREQUISITE edge
when no edge with that exact (left, type, right) triple exists; a second
call with the same pair reports the duplicate (the printed message), does
not fail, inserts nothing, and exactly one such edge is left in storage. -/
theorem create_relationship_prerequisite_dedup (db : DB) (a b : Nat)
    (h : check_for_relationship db a b = none) :
    (create_relationship_prerequisite db a b).2 = none ∧
    (create_relationship_prerequisite
      (create_relationship_prerequisite db a b).1 a b).1 =
      (create_relationship_prerequisite db a b).1 ∧
    ((create_relationship_prerequisite
      (create_relationship_prerequisite db a b).1 a b).2).isSome = true ∧
    ((create_relationship_prerequisite db a b).1.relationships.filter (fun r =>
      r.left_identifier_id == a && r.relationship_type_id == 29 &&
      r.right_identifier_id == b)).length = 1 := by
  have hE : (fun (r : RelationshipRow) =>
      r.left_identifier_id == a && r.relationship_type_id == 29 &&
      r.right_identifier_id == b)
      ({ left_identifier_id := a, relationship_type_id := 29,
         right_identifier_id := b, relationship_comment := "" } : RelationshipRow)
      = true := by simp
  have hfilt : db.relationships.filter (fun r =>
      r.left_identifier_id == a && r.relationship_type_id == 29 &&
      r.right_identifier_id == b) = [] := by
    rw [List.filter_eq_nil_iff]
    exact List.find?_eq_none.mp h
  have hfirst : create_relationship_prerequisite db a b =
      ({ db with relationships := db.relationships ++
        [{ left_identifier_id := a, relationship_type_id := 29,
           right_identifier_id := b, relationship_comment := "" }] }, none) := by
    unfold create_relationship_prerequisite
    rw [h]
  have hcheck2 : check_for_relationship
      ({ db with relationships := db.relationships ++
        [{ left_identifier_id := a, relationship_type_id := 29,
           right_identifier_id := b, relationship_comment := "" }] }) a b =
      some { left_identifier_id := a, relationship_type_id := 29,
             right_identifier_id := b, relationship_comment := "" } := by
    unfold check_for_relationship at h ⊢
    rw [List.find?_append, h]
    simp
  rw [hfirst]
  refine ⟨rfl, ?_, ?_, ?_⟩
  · unfold create_relationship_prerequisite
    rw [hcheck2]
  · unfold create_relationship_prerequisite
    rw [hcheck2]
    rfl
  · rw [List.filter_append, hfilt]
    simp

/-- C8: with the caller-side transaction scope in place (spec section 5),
a failure anywhere inside `register_package` leaves the store exactly as it
was, so no Package row with zero associated files becomes reachable by a
later caller. -/
theorem register_package_txn_atomic (env : Env) (db : DB) (package_root : String)
    (n v c fp : Option String) (e : PyErr) (db₁ : DB)
    (h : register_package_txn env db package_root n v c fp = .error (e, db₁)) :
    db₁ = db ∧ ∀ p ∈ db₁.packages, p ∈ db.packages := by
  unfold register_package_txn at h
  split at h
  · simp at h
  · simp only [Except.error.injEq, Prod.mk.injEq] at h
    obtain ⟨-, rfl⟩ := h
    exact ⟨rfl, fun p hp => hp⟩

/-- C9: when the directory walk yields an empty file set and the
(dir_code, ver_code) cache misses, `register_package` still creates and
returns a Package row, inserts zero `packages_files` rows and touches no
`files` row, without failing — `bulk_insert` on an empty rows list performs
no storage operation at all. -/
theorem register_package_empty_dir (env : Env) (db : DB) (package_root : String)
    (n v c : Option String) (vc dc : String)
    (hdh : env.getDirHashes package_root = (vc, [], dc))
    (hmiss : db.packages.filter (fun p => p.dosocs2_dir_code == some dc &&
      p.verification_code == vc) = []) :
    (∀ tbl : List PackageFileRow, bulk_insert tbl [] = tbl) ∧
    ∃ pkg db₁, register_package env db package_root n v c none = .ok (pkg, db₁, true) ∧
      db₁.packages_files = db.packages_files ∧ db₁.files = db.files ∧
      db₁.packages = db.packages ++ [pkg] := by
  refine ⟨fun tbl => rfl, ?_⟩
  have hc2 : get_cached_dir_pkg db dc vc = .ok none := by
    unfold get_cached_dir_pkg
    rw [hmiss]
    rfl
  simp only [register_package, hdh]
  rw [hc2]
  exact ⟨_, _, rfl, rfl, rfl, rfl⟩

/-- C4: starting from a store whose package rows all satisfy the regime
invariant, any `register_package` call — returning or raising — returns a
package satisfying it and leaves only packages satisfying it: `sha1` and
`dosocs2_dir_code` are never both populated. -/
theorem register_package_regimes (env : Env) (db : DB) (package_root : String)
    (n v c fp : Option String)
    (h0 : ∀ p ∈ db.packages, mutuallyExclusive p = true) :
    (∀ pkg db₁ s, register_package env db package_root n v c fp = .ok (pkg, db₁, s) →
      mutuallyExclusive pkg = true ∧ ∀ p ∈ db₁.packages, mutuallyExclusive p = true) ∧
    (∀ e db₁, register_package env db package_root n v c fp = .error (e, db₁) →
      ∀ p ∈ db₁.packages, mutuallyExclusive p = true) := by
  constructor
  · intro pkg db₁ s h1
    simp only [register_package] at h1
    split at h1
    · simp at h1
    · rename_i package hc1
      simp only [Except.ok.injEq, Prod.mk.injEq] at h1
      obtain ⟨rfl, rfl, -⟩ := h1
      have hmem : package ∈ db.packages := by
        cases fp with
        | none => simp at hc1
        | some pfp =>
          have hfl := lookup_by_sha1_eq_ok_some hc1
          have : package ∈ db.packages.filter
              (fun x => x.sha1 == some (env.sha1 pfp)) := by
            rw [hfl]
            exact List.mem_singleton_self _
          exact List.mem_of_mem_filter this
      exact ⟨h0 package hmem, h0⟩
    · rename_i hc1
      split at h1
      · simp at h1
      · rename_i found hc2
        simp only [Except.ok.injEq, Prod.mk.injEq] at h1
        obtain ⟨rfl, rfl, -⟩ := h1
        have hmem : found ∈ db.packages := by
          cases fp with
          | some pfp => simp at hc2
          | none =>
            have hfl := get_cached_dir_pkg_eq_ok_some hc2
            have : found ∈ db.packages.filter
                (fun p => p.dosocs2_dir_code ==
                  some (env.getDirHashes package_root).2.2 &&
                  p.verification_code == (env.getDirHashes package_root).1) := by
              rw [hfl]
              exact List.mem_singleton_self _
            exact List.mem_of_mem_filter this
        exact ⟨h0 found hmem, h0⟩
      · rename_i hc2
        split at h1
        · simp at h1
        · rename_i rows db2 hrf
          simp only [Except.ok.injEq, Prod.mk.injEq] at h1
          obtain ⟨rfl, rfl, -⟩ := h1
          constructor
          · cases fp <;> simp [mutuallyExclusive]
          · intro p hp
            have hpk := (register_package_files_frame hrf).1
            have hp2 : p ∈ db2.packages := hp
            rw [hpk] at hp2
            have hp3 : p ∈ db.packages ∨ p ∈ _ := List.mem_append.mp hp2
            rcases hp3 with hold | hnew
            · exact h0 p hold
            · rw [List.mem_singleton] at hnew
              subst hnew
              cases fp <;> simp [mutuallyExclusive]
  · intro e db₁ h1
    simp only [register_package] at h1
    split at h1
    · simp only [Except.error.injEq, Prod.mk.injEq] at h1
      obtain ⟨-, rfl⟩ := h1
      exact h0
    · simp at h1
    · rename_i hc1
      split at h1
      · simp only [Except.error.injEq, Prod.mk.injEq] at h1
        obtain ⟨-, rfl⟩ := h1
        exact h0
      · simp at h1
      · rename_i hc2
        split at h1
        · rename_i hrf
          simp only [Except.error.injEq] at h1
          subst h1
          have hpk := register_package_files_frame_err hrf
          intro p hp
          have hp2 := hp
          rw [hpk] at hp2
          have hp3 : p ∈ db.packages ∨ p ∈ _ := List.mem_append.mp hp2
          rcases hp3 with hold | hnew
          · exact h0 p hold
          · rw [List.mem_singleton] at hnew
            subst hnew
            cases fp <;> simp [mutuallyExclusive]
        · simp at h1

/-- C2: a second `register_package` call with equivalent input returns the
identical Package row and leaves the store untouched (no duplicate Package,
File, or PackageFile rows); on the archive-hash cache hit the returned flag
is `false`: the function returned before walking the tree or inserting
anything. -/
theorem register_package_idempotent (env : Env) (db : DB) (package_root : String)
    (n v c fp : Option String) (pkg : PackageRow) (db₁ : DB) (s : Bool)
    (h1 : register_package env db package_root n v c fp = .ok (pkg, db₁, s)) :
    register_package env db₁ package_root n v c fp = .ok (pkg, db₁, fp.isNone) := by
  cases fp with
  | some pfp =>
    simp only [register_package] at h1 ⊢
    split at h1
    · simp at h1
    · rename_i package hc1
      simp only [Except.ok.injEq, Prod.mk.injEq] at h1
      obtain ⟨rfl, rfl, -⟩ := h1
      rw [hc1]
      rfl
    · rename_i hc1
      split at h1
      · simp at h1
      · rename_i rows db2 hrf
        simp only [Except.ok.injEq, Prod.mk.injEq] at h1
        obtain ⟨hpkg, hdb, -⟩ := h1
        have hfl := lookup_by_sha1_eq_ok_none hc1
        have hpk := (register_package_files_frame hrf).1
        have hdbpackages : db₁.packages = db.packages ++ [pkg] := by
          rw [← hdb]
          show db2.packages = _
          rw [hpk, hpkg]
        have hsingle : db₁.packages.filter
            (fun x => x.sha1 == some (env.sha1 pfp)) = [pkg] := by
          rw [hdbpackages, List.filter_append, hfl, ← hpkg]
          simp
        rw [lookup_by_sha1_single hsingle]
        rfl
  | none =>
    simp only [register_package] at h1 ⊢
    split at h1
    · simp at h1
    · rename_i found hc2
      simp only [Except.ok.injEq, Prod.mk.injEq] at h1
      obtain ⟨rfl, rfl, -⟩ := h1
      rw [hc2]
      rfl
    · rename_i hc2
      split at h1
      · simp at h1
      · rename_i rows db2 hrf
        simp only [Except.ok.injEq, Prod.mk.injEq] at h1
        obtain ⟨hpkg, hdb, -⟩ := h1
        have hfl := get_cached_dir_pkg_eq_ok_none hc2
        have hpk := (register_package_files_frame hrf).1
        have hdbpackages : db₁.packages = db.packages ++ [pkg] := by
          rw [← hdb]
          show db2.packages = _
          rw [hpk, hpkg]
        have hsingle : db₁.packages.filter
            (fun p => p.dosocs2_dir_code == some (env.getDirHashes package_root).2.2 &&
              p.verification_code == (env.getDirHashes package_root).1) = [pkg] := by
          rw [hdbpackages, List.filter_append, hfl, ← hpkg]
          simp
        rw [get_cached_dir_pkg_single hsingle]
        rfl

/-- C7 (amended): querying dependencies of a package with no registered
Package row fails by raising an unhandled `TypeError` (subscripting `None`),
and a registered package without an Identifier row fails by raising an
unhandled `TypeError` (destructuring `None`) — the call does not succeed and
does not return a sentinel, but the raised error does not carry the
identifier involved. -/
theorem get_dependencies_unregistered (env : Env) (db : DB) (package : String)
    (pkg : PackageRow) :
    (db.packages.filter (fun p => p.sha1 == some (env.sha1 package)) = [] →
      get_dependencies env db package =
        .error (.typeError ("NoneType object is not subscriptable"))) ∧
    (db.packages.filter (fun p => p.sha1 == some (env.sha1 package)) = [pkg] →
      find_identifier_by_package_id db pkg.package_id = none →
      get_dependencies env db package =
        .error (.typeError ("NoneType object is not iterable"))) := by
  constructor
  · intro h
    simp only [get_dependencies]
    have hl : lookup_by_sha1 db.packages (fun p => p.sha1) (env.sha1 package) =
        .ok none := by
      unfold lookup_by_sha1
      rw [h]
      rfl
    rw [hl]
  · intro h hid
    simp only [get_dependencies]
    rw [lookup_by_sha1_single h]
    simp only [hid]

/-- C7 counterexample: two distinct unregistered packages make
`get_dependencies` raise the identical error value — a bare `TypeError` from
subscripting `None` — so the error is not a NotFoundError-kind error and
carries no context (no identifier) that could distinguish which lookup
failed. -/
theorem get_dependencies_error_carries_no_context :
    get_dependencies envW dbW ("pkgP") =
      .error (.typeError ("NoneType object is not subscriptable")) ∧
    get_dependencies envW dbW ("pkgQ") =
      .error (.typeError ("NoneType object is not subscriptable")) ∧
    ("pkgP" : String) ≠ "pkgQ" :=
  ⟨rfl, rfl, by decide⟩

/-- C1 (divergence): in `dbChain` the PREREQUISITE edges 1→2 and 2→3 are
both stored, yet `get_dependencies` on package A (identifier 1) returns
only identifiers 1 and 2 with the single edge (1,2): the broken recursive
query never reaches C (identifier 3), so the transitive closure over two
levels is not computed. -/
theorem get_dependencies_chain_misses_depth_two :
    get_dependencies envW dbChain ("pkgA") =
      .ok ([(1, ("A")), (2, ("B"))], [(1, 2, 29)]) ∧
    ({ left_identifier_id := 2, relationship_type_id := 29,
       right_identifier_id := 3, relationship_comment := "" } : RelationshipRow)
      ∈ dbChain.relationships := by
  constructor
  · rfl
  · simp [dbChain]

theorem flatten_inj_of_uniform_length {α : Type} (L : Nat) (hL : 0 < L) :
    ∀ (xs ys : List (List α)), (∀ s ∈ xs, s.length = L) → (∀ s ∈ ys, s.length = L) →
    xs.flatten = ys.flatten → xs = ys := by
  intro xs
  induction xs with
  | nil =>
    intro ys hx hy h
    cases ys with
    | nil => rfl
    | cons b u =>
      exfalso
      rw [List.flatten_nil, List.flatten_cons] at h
      have hb := hy b (List.mem_cons_self b u)
      cases b with
      | nil =>
        rw [List.length_nil] at hb
        omega
      | cons c cs => simp at h
  | cons a t ih =>
    intro ys hx hy h
    cases ys with
    | nil =>
      exfalso
      rw [List.flatten_cons, List.flatten_nil] at h
      have ha := hx a (List.mem_cons_self a t)
      cases a with
      | nil =>
        rw [List.length_nil] at ha
        omega
      | cons c cs => simp at h
    | cons b u =>
      rw [List.flatten_cons, List.flatten_cons] at h
      have hlen : a.length = b.length := by
        rw [hx a (List.mem_cons_self a t), hy b (List.mem_cons_self b u)]
      obtain ⟨rfl, hj⟩ := List.append_inj h hlen
      rw [ih u (fun s hs => hx s (List.mem_cons_of_mem _ hs))
        (fun s hs => hy s (List.mem_cons_of_mem _ hs)) hj]

theorem foldl_append_data (l : List String) (s : String) :
    (l.foldl (fun r t => r ++ t) s).data = s.data ++ (l.map String.data).flatten := by
  induction l generalizing s with
  | nil => simp
  | cons a t ih =>
    rw [List.foldl_cons, ih]
    simp [String.data_append]

theorem string_join_data (l : List String) :
    (String.join l).data = (l.map String.data).flatten := by
  unfold String.join
  rw [foldl_append_data]
  rfl

/-- C6: the verification code is invariant under permutation of the input
hashes (hence deterministic, order-independent, and identical for two
packages with identical file-hash multisets); and, for an injective hash
function over fixed-width hash strings, changing any one file content hash
changes the code. -/
theorem verification_code_spec :
    (∀ (f : String → String) (l l' : List String), l.Perm l' →
      verification_code f l = verification_code f l') ∧
    (∀ (f : String → String) (L : Nat) (a b : List String) (x y : String),
      Function.Injective f → 0 < L → (∀ s ∈ a ++ x :: b, s.length = L) →
      y.length = L → x ≠ y →
      verification_code f (a ++ x :: b) ≠ verification_code f (a ++ y :: b)) := by
  have hms : ∀ (l l' : List String), l.Perm l' →
      l.mergeSort (fun a b => a ≤ b) = l'.mergeSort (fun a b => a ≤ b) := by
    intro l l' hp
    exact List.eq_of_perm_of_sorted
      ((List.mergeSort_perm l _).trans (hp.trans (List.mergeSort_perm l' _).symm))
      (List.sorted_mergeSort' l) (List.sorted_mergeSort' l')
  constructor
  · intro f l l' hp
    unfold verification_code
    rw [hms l l' hp]
  · intro f L a b x y hinj hL hlen hy hne heq
    unfold verification_code at heq
    have hjoin := hinj heq
    have hdata : ((a ++ x :: b).mergeSort (fun a b => a ≤ b)).map String.data
        = ((a ++ y :: b).mergeSort (fun a b => a ≤ b)).map String.data := by
      apply flatten_inj_of_uniform_length L hL
      · intro s hs
        obtain ⟨t, ht, rfl⟩ := List.mem_map.mp hs
        exact hlen t ((List.mergeSort_perm _ _).mem_iff.mp ht)
      · intro s hs
        obtain ⟨t, ht, rfl⟩ := List.mem_map.mp hs
        have ht2 : t ∈ a ++ y :: b := (List.mergeSort_perm _ _).mem_iff.mp ht
        rcases List.mem_append.mp ht2 with hmem | hmem
        · exact hlen t (List.mem_append.mpr (Or.inl hmem))
        · rcases List.mem_cons.mp hmem with rfl | hmem
          · exact hy
          · exact hlen t (List.mem_append.mpr (Or.inr (List.mem_cons_of_mem _ hmem)))
      · rw [← string_join_data, ← string_join_data, hjoin]
    have hAB : (a ++ x :: b).mergeSort (fun a b => a ≤ b)
        = (a ++ y :: b).mergeSort (fun a b => a ≤ b) :=
      List.map_injective_iff.mpr (fun s t hst => String.ext hst) hdata
    have hperm : (a ++ x :: b).Perm (a ++ y :: b) := by
      have h1 := (List.mergeSort_perm (a ++ x :: b) (fun a b => a ≤ b)).symm
      rw [hAB] at h1
      exact h1.trans (List.mergeSort_perm _ _)
    have hcount := hperm.count_eq x
    simp [List.count_append, List.count_cons, hne] at hcount

/-! Witnesses: each theorem with hypotheses evaluated at a concrete input. -/

theorem lookup_by_sha1_unique_witness :
    lookup_by_sha1 ([] : List (Option String)) id ("h") = .ok none ∧
    lookup_by_sha1 [some ("h")] id ("h") = .ok (some (some ("h"))) ∧
    lookup_by_sha1 [some ("h"), some ("h")] id ("h") =
      .error (.valueError ("too many values to unpack")) :=
  ⟨(lookup_by_sha1_unique [] id ("h") (some ("h"))).1 rfl,
   (lookup_by_sha1_unique [some ("h")] id ("h") (some ("h"))).2.1 rfl,
   (lookup_by_sha1_unique [some ("h"), some ("h")] id ("h") (some ("h"))).2.2
     (by decide)⟩

theorem register_file_idempotent_witness :
    ∃ f db₁, register_file envW dbW ("p") none = .ok (f, db₁) ∧
      register_file envW db₁ ("p") none = .ok (f, db₁) ∧
      (db₁.files.filter (fun r => (some r.sha1 : Option String) ==
        some (envW.sha1 ("p")))).length = 1 := by
  obtain ⟨h1, h2⟩ := register_file_idempotent envW dbW ("p") _ _ rfl
  exact ⟨_, _, rfl, h1, h2⟩

theorem create_relationship_prerequisite_dedup_witness :
    (create_relationship_prerequisite dbW 7 8).2 = none ∧
    (create_relationship_prerequisite
      (create_relationship_prerequisite dbW 7 8).1 7 8).1 =
      (create_relationship_prerequisite dbW 7 8).1 ∧
    ((create_relationship_prerequisite
      (create_relationship_prerequisite dbW 7 8).1 7 8).2).isSome = true ∧
    ((create_relationship_prerequisite dbW 7 8).1.relationships.filter (fun r =>
      r.left_identifier_id == 7 && r.relationship_type_id == 29 &&
      r.right_identifier_id == 8)).length = 1 :=
  create_relationship_prerequisite_dedup dbW 7 8 rfl

theorem register_package_txn_atomic_witness :
    ∃ e db₁, register_package_txn envFail dbW ("root") none none none none =
      .error (e, db₁) ∧ db₁ = dbW := by
  refine ⟨_, _, rfl, ?_⟩
  exact (register_package_txn_atomic envFail dbW ("root") none none none none _ _ rfl).1

theorem register_package_empty_dir_witness :
    (∀ tbl : List PackageFileRow, bulk_insert tbl [] = tbl) ∧
    ∃ pkg db₁, register_package envEmptyDir dbW ("root") none none none none =
      .ok (pkg, db₁, true) ∧ db₁.packages_files = dbW.packages_files ∧
      db₁.files = dbW.files ∧ db₁.packages = dbW.packages ++ [pkg] :=
  register_package_empty_dir envEmptyDir dbW ("root") none none none
    ("vercode-root") ("dircode-root") rfl rfl

theorem register_package_regimes_witness :
    ∃ pkg db₁ s, register_package envW dbW ("root") none none none (some ("arc")) =
      .ok (pkg, db₁, s) ∧ mutuallyExclusive pkg = true := by
  refine ⟨_, _, _, rfl, ?_⟩
  exact ((register_package_regimes envW dbW ("root") none none none (some ("arc"))
    (by intro p hp; simp [dbW] at hp)).1 _ _ _ rfl).1

theorem register_package_idempotent_witness :
    ∃ pkg db₁ s, register_package envW dbW ("root") none none none (some ("arc")) =
      .ok (pkg, db₁, s) ∧
      register_package envW db₁ ("root") none none none (some ("arc")) =
        .ok (pkg, db₁, false) := by
  refine ⟨_, _, _, rfl, ?_⟩
  exact register_package_idempotent envW dbW ("root") none none none
    (some ("arc")) _ _ _ rfl

theorem get_dependencies_unregistered_witness :
    get_dependencies envW dbW ("nope") =
      .error (.typeError ("NoneType object is not subscriptable")) ∧
    get_dependencies envW dbNoId ("pkgP") =
      .error (.typeError ("NoneType object is not iterable")) :=
  ⟨(get_dependencies_unregistered envW dbW ("nope")
      (pkgRowOf 201 ("P") ("sha-pkgP"))).1 rfl,
   (get_dependencies_unregistered envW dbNoId ("pkgP")
      (pkgRowOf 201 ("P") ("sha-pkgP"))).2 rfl rfl⟩

theorem verification_code_spec_witness :
    verification_code id [("bb"), ("aa")] = verification_code id [("aa"), ("bb")] ∧
    verification_code id [("aa")] ≠ verification_code id [("ab")] :=
  ⟨verification_code_spec.1 id [("bb"), ("aa")] [("aa"), ("bb")] (by decide),
   verification_code_spec.2 id 2 [] [] ("aa") ("ab") (fun u v h => h) (by decide)
     (by decide) (by decide) (by decide)⟩
